import Mathlib

/-!
Verification of the error-identity resolution engine of the repair
evaluator.  The definitions below are shallow embeddings of the Python
sources:

* repair_pipeline/error_categorizer.py  (signatures, baseline, history,
  three-way categorization)
* repair_pipeline/error_matcher.py      (line cleanliness and the
  specific-error resolution matcher)
* repair_pipeline/metrics_calculator.py (error counts and outcome rows)
* terraform_validation/extractor.py     (the block_identifiers field of an
  extracted diagnostic row)

Python strings become String, validator line numbers become Option Int
(none models a missing or unparseable value, which the source skips via
its try/except blocks), and sets/dicts become lists with membership and
association-list lookup.
-/

/-- Python str.strip with no argument removes whitespace from both ends.
Modelled on the character list of a string. -/
def stripList (l : List Char) : List Char :=
  ((l.dropWhile Char.isWhitespace).reverse.dropWhile Char.isWhitespace).reverse

/-- Embedding of the Python expression s.strip(). -/
def pyStrip (s : String) : String :=
  String.mk (stripList s.data)

/-- One anchored step of the regex matching performed by pandas
Series.str.contains: the pattern matches a candidate suffix position when
each pattern character matches in order — the dot matches any character
except a newline, every other character matches literally. -/
def dotMatchesAt : List Char → List Char → Bool
  | [], _ => true
  | _ :: _, [] => false
  | p :: ps, c :: cs =>
      (if p = '.' then decide (c ≠ '\n') else decide (p = c)) && dotMatchesAt ps cs

/-- The re.search scan underlying pandas Series.str.contains: try the
anchored match at every position of the subject. -/
def dotSearch (pat : List Char) : List Char → Bool
  | [] => dotMatchesAt pat []
  | c :: cs => dotMatchesAt pat (c :: cs) || dotSearch pat cs

/-- Embedding of pandas Series.str.contains(pat) with its default
regex=True: re.search of the pattern in the subject.  The source only
passes base filenames as the pattern; those contain no regex
metacharacter other than the dot, so modelling the dot as the
any-character-but-newline wildcard and every other character as literal
is exact for every pattern this code builds (a pattern main.tf therefore
also selects a subject mainXtf). -/
def strContainsB (hay pat : String) : Bool :=
  dotSearch pat.data hay.data

/-- Embedding of os.path.basename for forward-slash paths: the part of the
path after the last slash (the whole path when it has no slash). -/
def basename (p : String) : String :=
  String.mk ((p.data.reverse.takeWhile (fun c => c ≠ '/')).reverse)

/-- Python str(x) on an optional validator line number: None prints as
"None", an integer prints as its decimal form.  This is what the line
fallback of the f-string signatures interpolates after line_. -/
def pyShowLine : Option Int → String
  | none => "None"
  | some v => toString v

/-- One extracted diagnostic row (the dictionaries built by
DiagnosticsExtractor.extract_rows and consumed by the categorizer and the
matcher).  Only the fields the engine reads are kept. -/
structure ExtractedRow where
  filename : String
  summary : String
  detail : String
  block_identifiers : String
  line_start : Option Int
deriving Repr, DecidableEq

/-- One row of the problems.csv catalogue (the fields read by
ErrorCategorizer.get_baseline_errors). -/
structure ProblemRow where
  filename : String
  block_type : String
  impacted_block_type : String
  summary : String
  detail : String
  line_start : Int
deriving Repr, DecidableEq

/-- One persisted diagnostics-CSV row (the fields read by
ErrorCategorizer.get_existing_experiment_errors). -/
structure HistoryRecord where
  filename : String
  iteration_id : String
  original_problem_oid : String
  block_identifiers : String
  summary : String
  detail : String
  line_start : Int
deriving Repr, DecidableEq

/-- The per-signature record accumulated by cross-experiment tracking:
the first iteration seen and the list of iterations carrying it. -/
structure ExperimentInfo where
  first_iteration : String
  iterations : List String
deriving Repr, DecidableEq

/-- The categorization fields that categorize_errors adds to a diagnostic
row. -/
structure Categorization where
  is_original_error : Bool
  is_new_error : Bool
  is_new_to_dataset : Bool
  introduced_in_this_iteration : Bool
  first_seen_in : String
  exists_in_iterations : String
deriving Repr, DecidableEq

/-- Signature of an extracted diagnostic, from
ErrorCategorizer.categorize_errors lines 59-68: prefer the
block_identifiers field (Python truthiness, so the empty string falls
through), else fall back to the start line. -/
def errorSignature (e : ExtractedRow) : String :=
  if e.block_identifiers ≠ "" then
    e.filename ++ "|" ++ e.block_identifiers ++ "|" ++ e.summary ++ "|" ++ e.detail
  else
    e.filename ++ "|line_" ++ pyShowLine e.line_start ++ "|" ++ e.summary ++ "|" ++ e.detail

/-- Signature of a problems.csv row, from
ErrorCategorizer.get_baseline_errors lines 132-155: the catalogue stores
the block kind and the impacted-block kind as two fields, which are joined
with a single space; if only the second is present it is used alone; if it
is absent the signature falls back to the line field. -/
def problemSignature (r : ProblemRow) : String :=
  let block_id :=
    if r.block_type ≠ "" ∧ r.impacted_block_type ≠ "" then
      r.block_type ++ " " ++ r.impacted_block_type
    else if r.impacted_block_type ≠ "" then
      r.impacted_block_type
    else
      ""
  if block_id ≠ "" then
    r.filename ++ "|" ++ block_id ++ "|" ++ r.summary ++ "|" ++ r.detail
  else
    r.filename ++ "|line_" ++ toString r.line_start ++ "|" ++ r.summary ++ "|" ++ r.detail

/-- Signature of a persisted history record, from
ErrorCategorizer.get_existing_experiment_errors lines 211-219 (the
pd.notna guard is vacuous for the string model). -/
def historySignature (r : HistoryRecord) : String :=
  if r.block_identifiers ≠ "" then
    r.filename ++ "|" ++ r.block_identifiers ++ "|" ++ r.summary ++ "|" ++ r.detail
  else
    r.filename ++ "|line_" ++ toString r.line_start ++ "|" ++ r.summary ++ "|" ++ r.detail

/-- The block_identifiers field written by
DiagnosticsExtractor.extract_rows line 109: the located block kind and its
identifiers joined with a space and stripped. -/
def blockIdentifiersField (b_type identifiers : String) : String :=
  pyStrip (b_type ++ " " ++ identifiers)

/-- ErrorCategorizer.get_baseline_errors on the problems catalogue: none
models a missing catalogue (returns the empty set); otherwise every row
whose filename field contains the base filename of the queried file
contributes its signature.  The per-file cache is state-free here (it only
memoizes this pure computation). -/
def getBaselineErrors (problems : Option (List ProblemRow)) (original_file : String) :
    List String :=
  match problems with
  | none => []
  | some rows =>
      (rows.filter (fun r => strContainsB r.filename (basename original_file))).map
        problemSignature

/-- The three-way classification of ErrorCategorizer.categorize_errors
lines 70-96 for one diagnostic, given the baseline signature set and the
cross-experiment map (the caller computes those from the catalogue and the
persisted store). -/
def categorizeOne (baseline : List String) (hist : List (String × ExperimentInfo))
    (iteration_id : String) (e : ExtractedRow) : Categorization :=
  let sig := errorSignature e
  if sig ∈ baseline then
    ⟨true, false, false, false, "baseline", ""⟩
  else
    match hist.lookup sig with
    | some info =>
        ⟨false, true, false, false, info.first_iteration,
          String.intercalate "," info.iterations⟩
    | none =>
        ⟨false, true, true, true,
          if iteration_id ≠ "" then iteration_id else "unknown", ""⟩

/-- ErrorCategorizer.categorize_errors over a whole extracted-row list:
each row is annotated in place; modelled as pairing each row with its
categorization. -/
def categorizeErrors (baseline : List String) (hist : List (String × ExperimentInfo))
    (iteration_id : String) (rows : List ExtractedRow) :
    List (ExtractedRow × Categorization) :=
  rows.map (fun e => (e, categorizeOne baseline hist iteration_id e))

/-- One step of the signature-to-iterations accumulation of
get_existing_experiment_errors lines 224-231: a fresh signature starts a
record carrying the iteration as first_iteration; a known signature appends
the iteration to its list when absent.  Insertion order of the scan is
kept, as in the Python dict. -/
def updateHist : List (String × ExperimentInfo) → String → String →
    List (String × ExperimentInfo)
  | [], sig, it => [(sig, ⟨it, [it]⟩)]
  | (s, info) :: rest, sig, it =>
      if s = sig then
        (s, ⟨info.first_iteration,
          if it ∈ info.iterations then info.iterations else info.iterations ++ [it]⟩)
          :: rest
      else
        (s, info) :: updateHist rest sig it

/-- The signature map built from a list of kept history records. -/
def buildHistMap (rs : List HistoryRecord) : List (String × ExperimentInfo) :=
  rs.foldl (fun m r => updateHist m (historySignature r) r.iteration_id) []

/-- The row filter of get_existing_experiment_errors lines 191-203: keep
rows whose filename contains the base filename, whose iteration differs
from the current one, and — when an originating-problem OID is supplied
(Python truthiness, so None and the empty string disable the filter) —
whose stored OID string-equals it. -/
def keepRecord (base cur : String) (scope : Option String) (r : HistoryRecord) : Bool :=
  strContainsB r.filename base && decide (r.iteration_id ≠ cur) &&
    (match scope with
     | none => true
     | some o => if o = "" then true else decide (r.original_problem_oid = o))

/-- ErrorCategorizer.get_existing_experiment_errors: none for the store
models a missing diagnostics CSV (first run), giving the empty map; the
cache key only memoizes this pure computation.  The except-branch of the
source also returns the empty map, so the function is total. -/
def getExistingExperimentErrors (store : Option (List HistoryRecord))
    (filename cur : String) (scope : Option String) :
    List (String × ExperimentInfo) :=
  match store with
  | none => []
  | some recs => buildHistMap (recs.filter (keepRecord (basename filename) cur scope))

/-- The original-problem record handed to the matcher
(metrics_calculator.py lines 88-94; line_start is pre-converted there with
int() and the sentinel -1 on failure). -/
structure OriginalErrorInfo where
  summary : String
  block_identifiers : String
  line_start : Int
  impacted_block_start_line : Int
  impacted_block_end_line : Int
deriving Repr, DecidableEq

/-- The fix context handed to the matcher (metrics_calculator.py lines
96-100).  fixed_file_content is None or the replacement text. -/
structure FixContext where
  start_line : Int
  end_line : Int
  fixed_file_content : Option String
deriving Repr, DecidableEq

/-- The inner loop of ErrorMatchingService.check_line_is_clean lines
35-44: a row whose line is missing or unparseable is skipped (the
try/except), the sentinel -1 is skipped, and any other line within
tolerance of the original returns False. -/
def lineCleanLoop (tol original_line : Int) : List ExtractedRow → Bool
  | [] => true
  | e :: rest =>
      match e.line_start with
      | none => lineCleanLoop tol original_line rest
      | some v =>
          if v ≠ -1 ∧ |v - original_line| ≤ tol then false
          else lineCleanLoop tol original_line rest

/-- ErrorMatchingService.check_line_is_clean: None for the unknown-line
sentinel -1, else the loop above. -/
def checkLineClean (tol original_line : Int) (errors : List ExtractedRow) :
    Option Bool :=
  if original_line = -1 then none else some (lineCleanLoop tol original_line errors)

/-- ErrorMatchingService._position_matches: both lines must be resolved
(not the sentinel -1) and within tolerance.  The source receives the raw
line_start of the row here without an int() conversion; a None would raise
a TypeError, but this path is only reached for rows with a non-empty
block_identifiers, which the extractor only produces for rows with a
resolved line, so none is modelled as no match. -/
def positionMatches (tol : Int) (error_line : Option Int) (original_line : Int) : Bool :=
  match error_line with
  | none => false
  | some el =>
      if el = -1 ∨ original_line = -1 then false
      else decide (|el - original_line| ≤ tol)

/-- ErrorMatchingService._is_renamed_block_match lines 113-146: both
identifiers present (after strip) but different, the row line resolved and
inside the impacted-block span widened by the tolerance, and equal
summaries.  The try/except around the int() conversions maps an
unparseable line to no match. -/
def isRenamedBlockMatch (tol : Int) (e : ExtractedRow) (orig : OriginalErrorInfo) : Bool :=
  let current_identifiers := pyStrip e.block_identifiers
  let original_identifiers := pyStrip orig.block_identifiers
  if ¬(current_identifiers ≠ "" ∧ original_identifiers ≠ "") then false
  else if current_identifiers = original_identifiers then false
  else
    match e.line_start with
    | none => false
    | some error_line =>
        if error_line = -1 ∨ orig.impacted_block_start_line = -1 then false
        else if orig.impacted_block_start_line - tol ≤ error_line ∧
            error_line ≤ orig.impacted_block_end_line + tol then
          decide (e.summary = orig.summary)
        else false

/-- ErrorMatchingService._matches_by_identifier lines 84-111: both
identifiers must be present; different identifiers divert to the
renamed-block check; the same identifier requires the same summary and a
position match. -/
def matchesByIdentifier (tol : Int) (e : ExtractedRow) (orig : OriginalErrorInfo) : Bool :=
  let current_identifiers := pyStrip e.block_identifiers
  let original_identifiers := pyStrip orig.block_identifiers
  if ¬(original_identifiers ≠ "" ∧ current_identifiers ≠ "") then false
  else if original_identifiers ≠ current_identifiers then
    isRenamedBlockMatch tol e orig
  else if e.summary ≠ orig.summary then false
  else positionMatches tol e.line_start orig.line_start

/-- Python str.splitlines length for a non-empty string: the number of
newline characters, plus one when the text does not end in a newline.
(The source only ever counts lines; universal-newline variants are not
exercised by the repository.) -/
def pySplitlinesCount (s : String) : Nat :=
  let n := s.data.count '\n'
  if s.data.getLast? = some '\n' then n else n + 1

/-- ErrorMatchingService._matches_by_position lines 148-188: only for rows
with no identifier; the row line must fall inside the fix area (start line
to start line plus the line count of the fixed content, widened by a
buffer of 2) and the summary must match.  Python truthiness makes a None
or empty fixed content count zero lines. -/
def matchesByPosition (e : ExtractedRow) (orig : OriginalErrorInfo) (ctx : FixContext) :
    Bool :=
  let current_identifiers := pyStrip e.block_identifiers
  if current_identifiers ≠ "" then false
  else
    match e.line_start with
    | none => false
    | some error_line =>
        if error_line = -1 then false
        else
          let new_lines_count : Int :=
            match ctx.fixed_file_content with
            | none => 0
            | some c => if c = "" then 0 else (pySplitlinesCount c : Int)
          let buffer : Int := 2
          let check_start := ctx.start_line - buffer
          let check_end := ctx.start_line + new_lines_count + buffer
          if check_start ≤ error_line ∧ error_line ≤ check_end then
            decide (e.summary = orig.summary)
          else false

/-- ErrorMatchingService.check_specific_error_fixed lines 46-82: scan the
post-fix rows; the identifier strategy (which subsumes the renamed-block
strategy) is tried first, then the position fallback; any match means the
specific error persists (False), no match at all means it is fixed
(True). -/
def checkSpecificErrorFixed (tol : Int) (orig : OriginalErrorInfo) :
    List ExtractedRow → FixContext → Bool
  | [], _ => true
  | e :: rest, ctx =>
      if matchesByIdentifier tol e orig then false
      else if matchesByPosition e orig ctx then false
      else checkSpecificErrorFixed tol orig rest ctx

/-- The error-count record of MetricsCalculator.calculate_error_metrics. -/
structure ErrorCounts where
  total : Nat
  in_file : Nat
  in_module : Nat
  original : Nat
  new : Nat
  new_to_dataset : Nat
  introduced_this_iteration : Nat
deriving Repr, DecidableEq

/-- MetricsCalculator.calculate_error_metrics lines 37-58.  The in_file
count compares normalized paths built with os.path; that comparison is
abstracted as the predicate inFile (it does not affect the other
counters, which count the categorization flags, and total and in_module
are both the plain length of the row list). -/
def calculateErrorMetrics (inFile : ExtractedRow → Bool)
    (rows : List (ExtractedRow × Categorization)) : ErrorCounts :=
  { total := rows.length
    in_file := (rows.filter (fun r => inFile r.1)).length
    in_module := rows.length
    original := (rows.filter (fun r => r.2.is_original_error)).length
    new := (rows.filter (fun r => r.2.is_new_error)).length
    new_to_dataset := (rows.filter (fun r => r.2.is_new_to_dataset)).length
    introduced_this_iteration :=
      (rows.filter (fun r => r.2.introduced_in_this_iteration)).length }

/-- The resolution verdicts of
MetricsCalculator.evaluate_resolution_metrics. -/
structure ResolutionMetrics where
  line_is_clean : Option Bool
  specific_error_fixed : Option Bool
deriving Repr, DecidableEq

/-- The per-attempt outcome record of
MetricsCalculator.create_outcome_row lines 140-152. -/
structure OutcomeRow where
  oid : String
  iteration_id : String
  llm_name : String
  filename : String
  line_is_clean : Option Bool
  line_specific_error_fixed : Option Bool
  module_total_errors : Nat
  file_errors : Nat
  module_errors : Nat
  module_original_errors_remaining : Nat
  module_fix_introduced_errors : Nat
deriving Repr, DecidableEq

/-- MetricsCalculator.create_outcome_row: packs identifiers, the two
resolution verdicts, and the error counters into one flat outcome row
(the relative-path conversion of the filename happens before this
model). -/
def createOutcomeRow (oid iteration_id llm_name filename : String)
    (rm : ResolutionMetrics) (ec : ErrorCounts) : OutcomeRow :=
  { oid := oid
    iteration_id := iteration_id
    llm_name := llm_name
    filename := filename
    line_is_clean := rm.line_is_clean
    line_specific_error_fixed := rm.specific_error_fixed
    module_total_errors := ec.total
    file_errors := ec.in_file
    module_errors := ec.in_module
    module_original_errors_remaining := ec.original
    module_fix_introduced_errors := ec.introduced_this_iteration }

/-- Helper: the loop of check_line_is_clean returns true exactly when no
row carries a resolved, non-sentinel line within tolerance. -/
theorem lineCleanLoop_true_iff (tol L : Int) (D : List ExtractedRow) :
    lineCleanLoop tol L D = true ↔
      ∀ e ∈ D, ∀ v : Int, e.line_start = some v → v ≠ -1 → tol < |v - L| := by
  induction D with
  | nil => simp [lineCleanLoop]
  | cons e rest ih =>
    simp only [lineCleanLoop, List.forall_mem_cons]
    cases hls : e.line_start with
    | none => simp [ih]
    | some v =>
      dsimp only
      by_cases hc : v ≠ -1 ∧ |v - L| ≤ tol
      · rw [if_pos hc]
        constructor
        · intro h; cases h
        · intro h
          exfalso
          have h3 := h.1 v rfl hc.1
          exact absurd hc.2 (not_le.mpr h3)
      · rw [if_neg hc, ih]
        constructor
        · intro h
          refine ⟨?_, h⟩
          intro v2 hv2 hne
          obtain rfl : v = v2 := Option.some.injEq v v2 ▸ hv2
          rcases not_and_or.mp hc with h1 | h1
          · exact absurd hne h1
          · exact not_le.mp h1
        · intro h; exact h.2

/-- C5: isLineClean returns null for the sentinel line -1; for a valid
line it returns true on the empty diagnostic list, and in general it
returns true exactly when no diagnostic carries a resolved, non-sentinel
start line within tolerance of the original line. -/
theorem check_line_is_clean_contract (tol L : Int) (D : List ExtractedRow)
    (hL : L ≠ -1) :
    checkLineClean tol (-1) D = none ∧
    checkLineClean tol L [] = some true ∧
    (checkLineClean tol L D = some true ↔
      ∀ e ∈ D, ∀ v : Int, e.line_start = some v → v ≠ -1 → tol < |v - L|) := by
  refine ⟨by simp [checkLineClean], by simp [checkLineClean, hL, lineCleanLoop], ?_⟩
  rw [checkLineClean, if_neg hL]
  simp only [Option.some.injEq]
  exact lineCleanLoop_true_iff tol L D

/-- Witness for C5 at a concrete input: the sentinel gives null. -/
theorem check_line_is_clean_contract_witness :
    checkLineClean 3 (-1) [⟨"f", "s", "d", "", some 20⟩] = none :=
  (check_line_is_clean_contract 3 10 [⟨"f", "s", "d", "", some 20⟩] (by decide)).1

/-- C2: signature construction is a pure function of the diagnostic
fields; with a non-empty block identifier the start line does not affect
the signature; with an empty block identifier the signature is the
file-line-summary-detail fallback form. -/
theorem signature_pure_and_line_stable :
    (∀ e1 e2 : ExtractedRow, e1.filename = e2.filename →
      e1.block_identifiers = e2.block_identifiers → e1.line_start = e2.line_start →
      e1.summary = e2.summary → e1.detail = e2.detail →
      errorSignature e1 = errorSignature e2) ∧
    (∀ (e : ExtractedRow) (l : Option Int), e.block_identifiers ≠ "" →
      errorSignature e = errorSignature { e with line_start := l }) ∧
    (∀ e : ExtractedRow, e.block_identifiers = "" →
      errorSignature e =
        e.filename ++ "|line_" ++ pyShowLine e.line_start ++ "|" ++ e.summary ++ "|" ++
          e.detail) := by
  refine ⟨?_, ?_, ?_⟩
  · intro e1 e2 h1 h2 h3 h4 h5
    simp [errorSignature, h1, h2, h3, h4, h5]
  · intro e l h
    simp [errorSignature, h]
  · intro e h
    simp [errorSignature, h]

/-- Witness for C2 at a concrete input: only the line differs, the
signature is unchanged. -/
theorem signature_pure_and_line_stable_witness :
    errorSignature ⟨"f.tf", "S", "D", "resource r", some 1⟩ =
      errorSignature ⟨"f.tf", "S", "D", "resource r", some 99⟩ :=
  signature_pure_and_line_stable.2.1 ⟨"f.tf", "S", "D", "resource r", some 1⟩ (some 99)
    (by decide)

/-- C1: a signature found in the baseline set is always classified as
baseline (is-baseline, not novel, not introduced, first seen in
baseline), even when it also occurs in the other-iterations history map;
and a signature missing from baseline but present in history takes the
history branch, never the novel default. -/
theorem categorize_baseline_dominates (baseline : List String)
    (hist : List (String × ExperimentInfo)) (iter : String) (e : ExtractedRow)
    (hb : errorSignature e ∈ baseline)
    (_hh : (hist.lookup (errorSignature e)).isSome = true) :
    ((categorizeOne baseline hist iter e).is_original_error = true ∧
     (categorizeOne baseline hist iter e).is_new_error = false ∧
     (categorizeOne baseline hist iter e).is_new_to_dataset = false ∧
     (categorizeOne baseline hist iter e).introduced_in_this_iteration = false ∧
     (categorizeOne baseline hist iter e).first_seen_in = "baseline") ∧
    (∀ (b2 : List String) (info : ExperimentInfo), errorSignature e ∉ b2 →
      hist.lookup (errorSignature e) = some info →
      (categorizeOne b2 hist iter e).is_original_error = false ∧
      (categorizeOne b2 hist iter e).is_new_to_dataset = false ∧
      (categorizeOne b2 hist iter e).introduced_in_this_iteration = false ∧
      (categorizeOne b2 hist iter e).first_seen_in = info.first_iteration) := by
  constructor
  · simp [categorizeOne, hb]
  · intro b2 info hb2 hl
    simp [categorizeOne, hb2, hl]

/-- Witness for C1 at a concrete input whose signature is in both the
baseline set and the history map. -/
theorem categorize_baseline_dominates_witness :
    (categorizeOne ["f.tf|resource r|S|D"]
        [("f.tf|resource r|S|D", ⟨"it0", ["it0"]⟩)] "it1"
        ⟨"f.tf", "S", "D", "resource r", some 2⟩).first_seen_in = "baseline" :=
  (categorize_baseline_dominates ["f.tf|resource r|S|D"]
      [("f.tf|resource r|S|D", ⟨"it0", ["it0"]⟩)] "it1"
      ⟨"f.tf", "S", "D", "resource r", some 2⟩ (by decide) (by decide)).1.2.2.2.2

/-- C10: in every outcome record built from computed error metrics, the
module-scoped error count and the total count coincide — both are the
length of the categorized diagnostic list. -/
theorem outcome_module_errors_eq_total (inFile : ExtractedRow → Bool)
    (rows : List (ExtractedRow × Categorization))
    (oid iteration_id llm_name filename : String) (rm : ResolutionMetrics) :
    (createOutcomeRow oid iteration_id llm_name filename rm
        (calculateErrorMetrics inFile rows)).module_errors =
      (createOutcomeRow oid iteration_id llm_name filename rm
        (calculateErrorMetrics inFile rows)).module_total_errors ∧
    (createOutcomeRow oid iteration_id llm_name filename rm
        (calculateErrorMetrics inFile rows)).module_total_errors = rows.length := by
  exact ⟨rfl, rfl⟩

/-- Helper: the resolution scan reports the specific error as persisting
whenever some row matches by identifier. -/
theorem checkSpecificErrorFixed_false_of_matches (tol : Int) (orig : OriginalErrorInfo)
    (ctx : FixContext) (e : ExtractedRow) (D : List ExtractedRow) (he : e ∈ D)
    (hm : matchesByIdentifier tol e orig = true) :
    checkSpecificErrorFixed tol orig D ctx = false := by
  induction D with
  | nil => cases he
  | cons a rest ih =>
    rcases List.mem_cons.mp he with h | h
    · subst h
      simp [checkSpecificErrorFixed, hm]
    · by_cases h1 : matchesByIdentifier tol a orig = true
      · simp [checkSpecificErrorFixed, h1]
      · by_cases h2 : matchesByPosition a orig ctx = true
        · simp [checkSpecificErrorFixed, h1, h2]
        · simp [checkSpecificErrorFixed, h1, h2, ih h]

/-- C4: a candidate diagnostic on a renamed block — non-empty identifier
different from the non-empty identifier of the original, line inside the
original impacted-block span widened by the tolerance, equal summary —
makes isSpecificErrorFixed report the error as still present. -/
theorem renamed_block_not_fixed (tol : Int) (orig : OriginalErrorInfo)
    (e : ExtractedRow) (D : List ExtractedRow) (ctx : FixContext) (el : Int)
    (hmem : e ∈ D)
    (ho : pyStrip orig.block_identifiers ≠ "")
    (hc : pyStrip e.block_identifiers ≠ "")
    (hne : pyStrip e.block_identifiers ≠ pyStrip orig.block_identifiers)
    (hl : e.line_start = some el)
    (hel : 1 ≤ el)
    (hs : 1 ≤ orig.impacted_block_start_line)
    (hlo : orig.impacted_block_start_line - tol ≤ el)
    (hhi : el ≤ orig.impacted_block_end_line + tol)
    (hsum : e.summary = orig.summary) :
    checkSpecificErrorFixed tol orig D ctx = false := by
  apply checkSpecificErrorFixed_false_of_matches tol orig ctx e D hmem
  have hel1 : ¬(el = -1 ∨ orig.impacted_block_start_line = -1) := by omega
  have hne2 : pyStrip orig.block_identifiers ≠ pyStrip e.block_identifiers :=
    fun h => hne h.symm
  simp only [matchesByIdentifier, isRenamedBlockMatch, hl]
  rw [if_neg (by simp [ho, hc]), if_pos hne2, if_neg (by simp [hc, ho]),
    if_neg (fun h => hne h), if_neg hel1, if_pos ⟨hlo, hhi⟩]
  exact decide_eq_true hsum

/-- Witness for C4: the spec scenario, an error under a renamed resource
block at the same position with the same summary. -/
theorem renamed_block_not_fixed_witness :
    checkSpecificErrorFixed 3 ⟨"S", "resource aws_namespace ns", 12, 10, 15⟩
      [⟨"f", "S", "D", "resource aws_namespace_v1 ns", some 12⟩]
      ⟨10, 15, some "x"⟩ = false :=
  renamed_block_not_fixed 3 ⟨"S", "resource aws_namespace ns", 12, 10, 15⟩
    ⟨"f", "S", "D", "resource aws_namespace_v1 ns", some 12⟩
    [⟨"f", "S", "D", "resource aws_namespace_v1 ns", some 12⟩]
    ⟨10, 15, some "x"⟩ 12 (by decide) (by decide) (by decide) (by decide) (by decide)
    (by decide) (by decide) (by decide) (by decide) (by decide)

/-- C9: a sole candidate diagnostic with the identical non-empty block
identifier and a line within tolerance but a different summary leaves
isSpecificErrorFixed true, and the position fallback can never fire for a
candidate carrying a non-empty (stripped) block identifier. -/
theorem distinct_summary_fixed (tol : Int) (orig : OriginalErrorInfo)
    (e : ExtractedRow) (ctx : FixContext) (el : Int)
    (ho : pyStrip orig.block_identifiers ≠ "")
    (heq : pyStrip e.block_identifiers = pyStrip orig.block_identifiers)
    (hsum : e.summary ≠ orig.summary)
    (_hl : e.line_start = some el)
    (_htol : |el - orig.line_start| ≤ tol) :
    checkSpecificErrorFixed tol orig [e] ctx = true ∧
    (∀ (e2 : ExtractedRow) (ctx2 : FixContext), pyStrip e2.block_identifiers ≠ "" →
      matchesByPosition e2 orig ctx2 = false) := by
  constructor
  · have hmi : matchesByIdentifier tol e orig = false := by
      simp only [matchesByIdentifier]
      rw [if_neg (by simp [ho, heq]), if_neg (by simp [heq]), if_pos hsum]
    have hmp : matchesByPosition e orig ctx = false := by
      simp only [matchesByPosition]
      rw [if_pos (heq ▸ ho)]
    simp [checkSpecificErrorFixed, hmi, hmp]
  · intro e2 ctx2 h2
    simp only [matchesByPosition]
    rw [if_pos h2]

/-- Witness for C9: the spec scenario, the same block carrying a different
summary. -/
theorem distinct_summary_fixed_witness :
    checkSpecificErrorFixed 3 ⟨"S", "resource aws_namespace ns", 12, 10, 15⟩
      [⟨"f", "T", "D", "resource aws_namespace ns", some 12⟩]
      ⟨10, 15, some "x"⟩ = true :=
  (distinct_summary_fixed 3 ⟨"S", "resource aws_namespace ns", 12, 10, 15⟩
    ⟨"f", "T", "D", "resource aws_namespace ns", some 12⟩
    ⟨10, 15, some "x"⟩ 12 (by decide) (by decide) (by decide) (by decide)
    (by decide)).1

/-- Helper: any key of an updated map is the inserted signature or a key
already present. -/
theorem mem_updateHist {m : List (String × ExperimentInfo)} {sig it s : String}
    {i : ExperimentInfo} (h : (s, i) ∈ updateHist m sig it) :
    s = sig ∨ ∃ i2, (s, i2) ∈ m := by
  induction m with
  | nil =>
    simp [updateHist] at h
    exact Or.inl h.1
  | cons a rest ih =>
    obtain ⟨s0, i0⟩ := a
    by_cases hs : s0 = sig
    · rw [updateHist, if_pos hs] at h
      rcases List.mem_cons.mp h with h1 | h1
      · exact Or.inl ((Prod.mk.injEq _ _ _ _ ▸ h1).1.trans hs)
      · exact Or.inr ⟨i, List.mem_cons_of_mem _ h1⟩
    · rw [updateHist, if_neg hs] at h
      rcases List.mem_cons.mp h with h1 | h1
      · exact Or.inr ⟨i0, (Prod.mk.injEq _ _ _ _ ▸ h1).1 ▸ List.mem_cons_self _ _⟩
      · rcases ih h1 with h2 | ⟨i2, h2⟩
        · exact Or.inl h2
        · exact Or.inr ⟨i2, List.mem_cons_of_mem _ h2⟩

/-- Helper: every key of the accumulated history map is the signature of
some scanned record or a key of the starting map. -/
theorem mem_foldl_updateHist (rs : List HistoryRecord)
    (m : List (String × ExperimentInfo)) (s : String) (i : ExperimentInfo)
    (h : (s, i) ∈ rs.foldl (fun m r => updateHist m (historySignature r) r.iteration_id) m) :
    (∃ i2, (s, i2) ∈ m) ∨ ∃ r ∈ rs, historySignature r = s := by
  induction rs generalizing m i with
  | nil => exact Or.inl ⟨i, h⟩
  | cons r rest ih =>
    rw [List.foldl_cons] at h
    rcases ih (updateHist m (historySignature r) r.iteration_id) i h with ⟨i2, h2⟩ | h2
    · rcases mem_updateHist h2 with h3 | ⟨i3, h3⟩
      · exact Or.inr ⟨r, List.mem_cons_self _ _, h3.symm⟩
      · exact Or.inl ⟨i3, h3⟩
    · obtain ⟨r2, hr2, hr2s⟩ := h2
      exact Or.inr ⟨r2, List.mem_cons_of_mem _ hr2, hr2s⟩

/-- C6: with a non-empty scope OID, every signature of the history map
comes from a persisted record for the file whose iteration differs from
the excluded one and whose stored originating OID equals the scope OID;
and when no record carries the scope OID the query returns the empty map
(totally, without any failure). -/
theorem history_scoping (recs : List HistoryRecord) (file cur o : String)
    (ho : o ≠ "") :
    (∀ (sig : String) (info : ExperimentInfo),
      (sig, info) ∈ getExistingExperimentErrors (some recs) file cur (some o) →
      ∃ r ∈ recs, strContainsB r.filename (basename file) = true ∧
        r.iteration_id ≠ cur ∧ r.original_problem_oid = o ∧ historySignature r = sig) ∧
    ((∀ r ∈ recs, r.original_problem_oid ≠ o) →
      getExistingExperimentErrors (some recs) file cur (some o) = []) := by
  constructor
  · intro sig info hmem
    rw [getExistingExperimentErrors, buildHistMap] at hmem
    rcases mem_foldl_updateHist _ _ _ _ hmem with ⟨i2, h2⟩ | ⟨r, hr, hrs⟩
    · cases h2
    · have hk := (List.mem_filter.mp hr).2
      rw [keepRecord, if_neg ho] at hk
      simp only [Bool.and_eq_true, decide_eq_true_eq] at hk
      exact ⟨r, (List.mem_filter.mp hr).1, hk.1.1, hk.1.2, hk.2, hrs⟩
  · intro hnone
    rw [getExistingExperimentErrors]
    have hf : recs.filter (keepRecord (basename file) cur (some o)) = [] := by
      rw [List.filter_eq_nil_iff]
      intro r hr hkeep
      rw [keepRecord, if_neg ho] at hkeep
      simp only [Bool.and_eq_true, decide_eq_true_eq] at hkeep
      exact hnone r hr hkeep.2
    rw [hf]
    rfl

/-- Witness for C6: a record written by an attempt targeting OID A is
invisible to a history query scoped to OID B. -/
theorem history_scoping_witness :
    getExistingExperimentErrors
      (some [⟨"clones/p/main.tf", "it1", "A", "resource r", "S", "D", 3⟩])
      "clones/p/main.tf" "it2" (some "B") = [] :=
  (history_scoping [⟨"clones/p/main.tf", "it1", "A", "resource r", "S", "D", 3⟩]
    "clones/p/main.tf" "it2" "B" (by decide)).2 (by decide)

/-- Counterexample for C7: with no catalogue supplied the baseline is
empty, and a post-repair diagnostic unseen in history is classified truly
novel and introduced-this-iteration, with first-seen set to the current
iteration — the downstream classification is not a null or unknown
marker. -/
theorem missing_catalogue_cex :
    getBaselineErrors none "main.tf" = [] ∧
    (categorizeOne (getBaselineErrors none "main.tf") [] "it1"
      ⟨"main.tf", "S", "D", "", some 3⟩).is_new_to_dataset = true ∧
    (categorizeOne (getBaselineErrors none "main.tf") [] "it1"
      ⟨"main.tf", "S", "D", "", some 3⟩).introduced_in_this_iteration = true ∧
    (categorizeOne (getBaselineErrors none "main.tf") [] "it1"
      ⟨"main.tf", "S", "D", "", some 3⟩).first_seen_in = "it1" := by
  refine ⟨rfl, ?_, ?_, ?_⟩ <;> decide

/-- Amended C7: when no problem catalogue is supplied, baseline(file) is
the empty set for every file, and the categorizer then labels every
post-repair diagnostic absent from history as truly novel and
introduced-this-iteration (not as a null or unknown classification). -/
theorem missing_catalogue_empty_and_novel (f iter : String) (d : ExtractedRow)
    (hist : List (String × ExperimentInfo))
    (hh : hist.lookup (errorSignature d) = none) :
    getBaselineErrors none f = [] ∧
    (categorizeOne (getBaselineErrors none f) hist iter d).is_new_to_dataset = true ∧
    (categorizeOne (getBaselineErrors none f) hist iter d).introduced_in_this_iteration =
      true := by
  refine ⟨rfl, ?_, ?_⟩ <;> simp [categorizeOne, getBaselineErrors, hh]

/-- Witness for the amended C7 at a concrete diagnostic. -/
theorem missing_catalogue_empty_and_novel_witness :
    (categorizeOne (getBaselineErrors none "main.tf") [] "it1"
      ⟨"main.tf", "S", "D", "", some 3⟩).introduced_in_this_iteration = true :=
  (missing_catalogue_empty_and_novel "main.tf" "it1" ⟨"main.tf", "S", "D", "", some 3⟩
    [] rfl).2.2

/-- Counterexample for C8: a catalogue row for domain.tf — a different
base filename — still contributes a signature to the baseline of main.tf,
and so does a row for mainXtf, because the selection applies the queried
base filename as a regular expression via pandas str.contains (the dot a
wildcard); base-filename equality is not required. -/
theorem baseline_row_selection_cex :
    basename "clones/p/domain.tf" ≠ basename "clones/p/main.tf" ∧
    getBaselineErrors (some [⟨"clones/p/domain.tf", "resource", "aws x", "S", "D", 4⟩])
      "clones/p/main.tf" =
      [problemSignature ⟨"clones/p/domain.tf", "resource", "aws x", "S", "D", 4⟩] ∧
    getBaselineErrors (some [⟨"clones/p/mainXtf", "resource", "aws x", "S", "D", 4⟩])
      "clones/p/main.tf" =
      [problemSignature ⟨"clones/p/mainXtf", "resource", "aws x", "S", "D", 4⟩] := by
  refine ⟨?_, ?_, ?_⟩ <;> decide

/-- Amended C8: a catalogue row contributes its signature to
baseline(file) exactly when the base filename of the queried file matches
somewhere inside the file field of the row under the default regex search
of pandas str.contains — the dot a wildcard, every other character
literal — a weaker test than base-filename equality. -/
theorem baseline_row_selection_iff (rows : List ProblemRow) (q sig : String) :
    sig ∈ getBaselineErrors (some rows) q ↔
      ∃ r ∈ rows, strContainsB r.filename (basename q) = true ∧
        problemSignature r = sig := by
  simp only [getBaselineErrors, List.mem_map, List.mem_filter]
  constructor
  · rintro ⟨r, ⟨hr, hc⟩, hs⟩
    exact ⟨r, hr, hc, hs⟩
  · rintro ⟨r, hr, hc, hs⟩
    exact ⟨r, ⟨hr, hc⟩, hs⟩

/-- Witness for the amended C8: a row whose path differs from the query
only in its leading directories is selected. -/
theorem baseline_row_selection_iff_witness :
    problemSignature ⟨"clones/q/main.tf", "resource", "aws x", "S", "D", 4⟩ ∈
      getBaselineErrors (some [⟨"clones/q/main.tf", "resource", "aws x", "S", "D", 4⟩])
        "clones/p/main.tf" :=
  (baseline_row_selection_iff [⟨"clones/q/main.tf", "resource", "aws x", "S", "D", 4⟩]
    "clones/p/main.tf"
    (problemSignature ⟨"clones/q/main.tf", "resource", "aws x", "S", "D", 4⟩)).mpr
    ⟨⟨"clones/q/main.tf", "resource", "aws x", "S", "D", 4⟩, by decide, by decide, rfl⟩

/-- Helper: a list unchanged by dropWhile starts with a character the
predicate rejects. -/
theorem head_not_ws_of_dropWhile_eq {l : List Char}
    (h : l.dropWhile Char.isWhitespace = l) {c : Char} {t : List Char}
    (hl : l = c :: t) : Char.isWhitespace c = false := by
  subst hl
  have h2 := List.head?_dropWhile_not Char.isWhitespace (c :: t)
  rw [h] at h2
  simpa using h2

/-- Helper: stripping a space-joined pair of already-stripped strings with
a non-empty right part keeps the right part and drops the separator only
when the left part is empty. -/
theorem stripList_append (k i : List Char)
    (hk : k.dropWhile Char.isWhitespace = k)
    (hi1 : i.dropWhile Char.isWhitespace = i)
    (hi2 : i.reverse.dropWhile Char.isWhitespace = i.reverse)
    (hi : i ≠ []) :
    stripList (k ++ ' ' :: i) = if k = [] then i else k ++ ' ' :: i := by
  obtain ⟨c2, t2, hrev⟩ : ∃ c2 t2, i.reverse = c2 :: t2 := by
    cases hir : i.reverse with
    | nil => exact absurd (by simpa using congrArg List.reverse hir) hi
    | cons a b => exact ⟨a, b, rfl⟩
  have hc2 : Char.isWhitespace c2 = false := head_not_ws_of_dropWhile_eq hi2 hrev
  cases k with
  | nil =>
    rw [if_pos rfl]
    show stripList (' ' :: i) = i
    rw [stripList, List.dropWhile_cons_of_pos (by decide), hi1, hrev,
      List.dropWhile_cons_of_neg (by simp [hc2]), ← hrev, List.reverse_reverse]
  | cons c t =>
    rw [if_neg (by simp)]
    have hc : Char.isWhitespace c = false := head_not_ws_of_dropWhile_eq hk rfl
    rw [stripList, List.cons_append, List.dropWhile_cons_of_neg (by simp [hc])]
    have hrw : (c :: (t ++ ' ' :: i)).reverse = c2 :: (t2 ++ ' ' :: (c :: t).reverse) := by
      rw [show c :: (t ++ ' ' :: i) = (c :: t) ++ ' ' :: i from rfl, List.reverse_append,
        List.reverse_cons, hrev]
      simp
    rw [hrw, List.dropWhile_cons_of_neg (by simp [hc2]), ← hrw, List.reverse_reverse]

/-- Helper: the extractor-side strip of blockKind-space-identifiers, for
already-stripped parts with a non-empty identifiers part, keeps the space
join and only drops the separator when the kind is empty. -/
theorem pyStrip_space_concat (k i : String)
    (hk : k.data.dropWhile Char.isWhitespace = k.data)
    (hi1 : i.data.dropWhile Char.isWhitespace = i.data)
    (hi2 : i.data.reverse.dropWhile Char.isWhitespace = i.data.reverse)
    (hi : i ≠ "") :
    pyStrip (k ++ " " ++ i) = if k = "" then i else k ++ " " ++ i := by
  have hdata : (k ++ " " ++ i).data = k.data ++ ' ' :: i.data := by
    rw [String.data_append, String.data_append]
    simp [show (" " : String).data = [' '] from rfl]
  have hinil : i.data ≠ [] := fun h => hi (String.ext h)
  rw [pyStrip, hdata, stripList_append k.data i.data hk hi1 hi2 hinil]
  by_cases hk0 : k = ""
  · subst hk0
    rw [if_pos rfl, if_pos rfl]
  · rw [if_neg (fun h => hk0 (String.ext h)), if_neg hk0]
    exact String.ext hdata.symm

/-- Counterexample for C3: for a logical error with block kind resource
and an empty identifier part, the catalogue-side signature falls back to
the line form while the diagnostic-side signature keeps the kind as its
block identifier, so the two schemes disagree even at the same file,
summary, detail and line. -/
theorem single_signature_scheme_cex :
    problemSignature ⟨"main.tf", "resource", "", "S", "D", 5⟩ ≠
      errorSignature ⟨"main.tf", "S", "D", blockIdentifiersField "resource" "", some 5⟩ := by
  decide

/-- Amended C3: the catalogue-side signature (block_type and
impacted_block_type joined) and the diagnostic-side signature (the single
block_identifiers field the extractor writes as the stripped join of the
block kind and its identifiers) agree for every pair referring to the
same file, kind, identifier, summary and detail, provided the identifier
part is non-empty and the kind and identifier carry no leading or
trailing whitespace. -/
theorem single_signature_scheme_amended (f k i s d : String) (lp : Int)
    (ld : Option Int)
    (hk : k.data.dropWhile Char.isWhitespace = k.data)
    (hi1 : i.data.dropWhile Char.isWhitespace = i.data)
    (hi2 : i.data.reverse.dropWhile Char.isWhitespace = i.data.reverse)
    (hi : i ≠ "") :
    problemSignature ⟨f, k, i, s, d, lp⟩ =
      errorSignature ⟨f, s, d, blockIdentifiersField k i, ld⟩ := by
  have hbid := pyStrip_space_concat k i hk hi1 hi2 hi
  rw [blockIdentifiersField] at *
  by_cases hk0 : k = ""
  · subst hk0
    rw [hbid, if_pos rfl]
    simp [problemSignature, errorSignature, hi]
  · rw [hbid, if_neg hk0]
    have hne2 : k ++ " " ++ i ≠ "" := by
      intro h
      have h2 := congrArg String.data h
      rw [String.data_append, String.data_append] at h2
      simp at h2
    simp [problemSignature, errorSignature, hk0, hi, hne2]

/-- Witness for the amended C3 at a concrete catalogue row and diagnostic
with a non-empty identifier part (the lines differ, which the
block-identifier scheme ignores). -/
theorem single_signature_scheme_amended_witness :
    problemSignature ⟨"main.tf", "resource", "aws_instance web", "S", "D", 5⟩ =
      errorSignature ⟨"main.tf", "S", "D",
        blockIdentifiersField "resource" "aws_instance web", some 9⟩ :=
  single_signature_scheme_amended "main.tf" "resource" "aws_instance web" "S" "D" 5
    (some 9) (by decide) (by decide) (by decide) (by decide)
